import Mathlib

/-!
Shallow embedding of the text-similarity service (Flask app, files
`Assign-02/app.py` and `Assign-03/app.py`; Assign-03 strictly extends
Assign-02 with the Gemini oracle client, and the shared metric functions
are textually identical in the two files, so one embedding covers both).

Strings are modelled as Lean `String` (lists of characters); the Python
float results of the set-based metrics are modelled as exact rationals
`ℚ`, since every value those functions produce is a small rational and
the specified identities are rational identities.  The sklearn TF-IDF
cosine similarity is modelled over `ℝ` (it involves logarithms and
square roots).  The external library functions `json.loads` and
`float(...)` are modelled as explicit function parameters (`loads`,
`coerce`), with `none` standing for the exception the Python call would
raise.
-/

/-- ASCII whitespace, as stripped by Python `str.strip()` and matched by
`\s` / `str.split()` on ASCII text. -/
def pyWs (c : Char) : Bool :=
  c = ' ' || c = '\t' || c = '\n' || c = '\r' || c = '\x0b' || c = '\x0c'

/-- Python `str.strip()`: drop leading and trailing whitespace. -/
def pyStrip (s : String) : String :=
  String.mk (((s.data.dropWhile pyWs).reverse.dropWhile pyWs).reverse)

/-- Lowercase ASCII letter test: the character class `[a-z]`. -/
def isLowerAlpha (c : Char) : Bool := 'a' ≤ c && c ≤ 'z'

/-- The character class `[a-z\s]` kept by `re.sub(r'[^a-z\s]', '', ...)`. -/
def cleanKeep (c : Char) : Bool := isLowerAlpha c || pyWs c

/-- Python `str.split()` with no separator: split on runs of whitespace,
discarding empty pieces.  The accumulator holds the current word reversed. -/
def splitWords : List Char → List Char → List String
  | [], acc => if acc.isEmpty then [] else [String.mk acc.reverse]
  | c :: cs, acc =>
    if pyWs c then
      if acc.isEmpty then splitWords cs []
      else String.mk acc.reverse :: splitWords cs []
    else splitWords cs (c :: acc)

/-- Model of `clean_text` (both app files): lowercase, delete every character outside
`[a-z\s]`, split into words. -/
def clean_text (text : String) : List String :=
  splitWords ((text.data.map Char.toLower).filter cleanKeep) []

/-- The character sequence kept by `char_similarity`'s
`re.sub(r'[^a-z]', '', text.lower())`. -/
def charFilter (t : String) : List Char :=
  (t.data.map Char.toLower).filter isLowerAlpha

/-- Model of `char_similarity` (both app files): Jaccard ratio of the two sets of
lowercase alphabetic characters, 0.0 when either filtered text is empty. -/
def char_similarity (t1 t2 : String) : ℚ :=
  let l1 := charFilter t1
  let l2 := charFilter t2
  if l1.isEmpty || l2.isEmpty then 0
  else
    let s1 := l1.toFinset
    let s2 := l2.toFinset
    let common := (s1 ∩ s2).card
    let total := (s1 ∪ s2).card
    if 0 < total then (common : ℚ) / (total : ℚ) else 0

/-- Model of `jaccard_sim` (both app files): Jaccard index of the two word sets,
1.0 when both are empty. -/
def jaccard_sim (w1 w2 : List String) : ℚ :=
  let s1 := w1.toFinset
  let s2 := w2.toFinset
  if s1 = ∅ ∧ s2 = ∅ then 1
  else
    let inter := (s1 ∩ s2).card
    let union := (s1 ∪ s2).card
    if 0 < union then (inter : ℚ) / (union : ℚ) else 0

/-- Model of `word_overlap` (both app files): `shared * 2 / total * 100` over the two
word sets, 100.0 when both are empty. -/
def word_overlap (w1 w2 : List String) : ℚ :=
  let s1 := w1.toFinset
  let s2 := w2.toFinset
  if s1 = ∅ ∧ s2 = ∅ then 100
  else
    let shared := (s1 ∩ s2).card
    let total := s1.card + s2.card
    if 0 < total then (shared : ℚ) * 2 / (total : ℚ) * 100 else 0

/-! ### The sklearn TF-IDF character n-gram cosine similarity

The function `cosine_sim` calls `TfidfVectorizer(analyzer=..., ngram_range=(1, 3))`
fitted jointly on both raw texts and then the cosine of the two rows.
The vectorizer lowercases its input, extracts character n-grams of
lengths 1 to 3, weights term frequency by smoothed inverse document
frequency `ln((1 + n) / (1 + df)) + 1` with `n = 2` documents, and the
final cosine divides the dot product by the product of the Euclidean
norms (the vectorizer's own L2 row normalisation is absorbed by that
division, so it is not modelled separately).  On an empty vocabulary
(both texts produce no n-grams) `fit_transform` raises and the
surrounding `except` returns 0.0. -/

/-- Lowercasing applied by the vectorizer before n-gram extraction. -/
def sklearnLower (t : String) : List Char := t.data.map Char.toLower

/-- All contiguous character n-grams of length `n`. -/
def charNgrams (s : List Char) (n : Nat) : List (List Char) :=
  (List.range (s.length + 1 - n)).map fun i => (s.drop i).take n

/-- The n-gram (lengths 1..3) occurrence list of one document. -/
def featureList (t : String) : List (List Char) :=
  charNgrams (sklearnLower t) 1 ++ charNgrams (sklearnLower t) 2 ++
    charNgrams (sklearnLower t) 3

/-- The set of n-grams occurring in one document. -/
def featureSet (t : String) : Finset (List Char) := (featureList t).toFinset

/-- Term frequency of n-gram `f` in document `d`. -/
def tf (d : String) (f : List Char) : Nat := (featureList d).count f

/-- Document frequency of `f` over the two-document corpus. -/
def df (t1 t2 : String) (f : List Char) : Nat :=
  (if f ∈ featureSet t1 then 1 else 0) + (if f ∈ featureSet t2 then 1 else 0)

/-- Smoothed inverse document frequency for a two-document corpus. -/
noncomputable def idf (t1 t2 : String) (f : List Char) : ℝ :=
  Real.log ((1 + 2) / (1 + (df t1 t2 f : ℝ))) + 1

/-- TF-IDF weight of n-gram `f` for document `d`, corpus `(t1, t2)`. -/
noncomputable def tfidfVec (t1 t2 d : String) (f : List Char) : ℝ :=
  (tf d f : ℝ) * idf t1 t2 f

/-- Dot product of two feature vectors over a finite vocabulary. -/
noncomputable def dotProd (vocab : Finset (List Char)) (u v : List Char → ℝ) : ℝ :=
  ∑ f ∈ vocab, u f * v f

/-- Model of `cosine_sim` (both app files): cosine of the two TF-IDF rows; 0.0 when
vectorization fails (empty vocabulary).  Division by a zero norm yields 0
in Lean, matching sklearn's convention that an all-zero row has cosine 0. -/
noncomputable def cosine_sim (t1 t2 : String) : ℝ :=
  if featureSet t1 ∪ featureSet t2 = ∅ then 0
  else
    dotProd (featureSet t1 ∪ featureSet t2) (tfidfVec t1 t2 t1) (tfidfVec t1 t2 t2) /
      (Real.sqrt (dotProd (featureSet t1 ∪ featureSet t2) (tfidfVec t1 t2 t1) (tfidfVec t1 t2 t1)) *
       Real.sqrt (dotProd (featureSet t1 ∪ featureSet t2) (tfidfVec t1 t2 t2) (tfidfVec t1 t2 t2)))

/-! ### The Gemini oracle client -/

/-- JSON values, the possible results of Python `json.loads`. -/
inductive Json where
  | null : Json
  | bool (b : Bool) : Json
  | num (q : ℚ) : Json
  | str (s : String) : Json
  | arr (elems : List Json) : Json
  | obj (fields : List (String × Json)) : Json

/-- The structured analysis dictionary shape: the fields of both fallback
dictionaries built in `gemini_similarity_analysis`. -/
structure SemanticAnalysis where
  semantic_similarity : ℚ
  insights : String
  themes_text1 : List String
  themes_text2 : List String
  key_differences : String
  writing_style_comparison : String
deriving DecidableEq

/-- Result of `gemini_similarity_analysis`: in Python all three outcomes are
plain dictionaries; the constructors record which code path produced the
value (successful structured parse, the parse-failure fallback, or the
catch-all `except Exception` fallback). -/
inductive GeminiResult where
  | parsed (j : Json) : GeminiResult
  | fallback (a : SemanticAnalysis) : GeminiResult
  | errorFallback (a : SemanticAnalysis) : GeminiResult

/-- Outcome of the one outbound HTTP exchange inside `call_gemini_api`,
covering every branch of that function: no configured key, a transport
exception, a timeout, a non-200 status, a 200 reply whose envelope lacks
`candidates`/`content`/`parts`, or a 200 reply with an extracted text. -/
inductive OracleOutcome where
  | noCredential : OracleOutcome
  | transportError : OracleOutcome
  | timeout : OracleOutcome
  | httpFailure (status : Nat) (body : String) : OracleOutcome
  | malformedEnvelope : OracleOutcome
  | success (text : String) : OracleOutcome

/-- Model of `call_gemini_api` (`Assign-03/app.py`): returns the candidate text on a
successful round trip and `None` on every failure branch (missing key,
non-200 status, missing envelope fields, or any raised exception). -/
def call_gemini_api : OracleOutcome → Option String
  | .success t => some t
  | _ => none

/-- Python truthiness of an optional string (`None` and `""` are falsy). -/
def pyTruthy : Option String → Bool
  | none => false
  | some t => !t.isEmpty

/-- Index of the first character satisfying `p` (Python `str.find`). -/
def findIdxFirst (l : List Char) (p : Char → Bool) : Option Nat :=
  l.findIdx? p

/-- Index of the last character satisfying `p` (Python `str.rfind`). -/
def findIdxLast (l : List Char) (p : Char → Bool) : Option Nat :=
  (l.reverse.findIdx? p).map fun i => l.length - 1 - i

/-- The slice `response_text[start:end]` between the first brace and one past
the last closing brace, mirroring `find`/`rfind` plus the
`start != -1 and end != 0` guard; `none` when either brace is absent. -/
def braceSubstring (t : String) : Option String :=
  match findIdxFirst t.data (· = '\x7b'), findIdxLast t.data (· = '\x7d') with
  | some s, some e => some (String.mk ((t.data.drop s).take (e + 1 - s)))
  | _, _ => none

/-- Python `'semantic_similarity' in parsed`: `some b` when the membership
test evaluates to `b` (key lookup in a dict, element equality in a list,
substring containment in a string), `none` when it raises `TypeError`
(membership test on a number, boolean or `None`). -/
def memSemSim : Json → Option Bool
  | .obj fields => some (fields.any fun kv => kv.1 = "semantic_similarity")
  | .arr elems => some (elems.any fun j =>
      match j with
      | .str s => s = "semantic_similarity"
      | _ => false)
  | .str s => some (decide ( List.IsInfix "semantic_similarity".data s.data))
  | _ => none

/-- Replace the value of the first `semantic_similarity` field. -/
def setSemSim (fields : List (String × Json)) (q : ℚ) : List (String × Json) :=
  match fields with
  | [] => []
  | (k, v) :: rest =>
    if k = "semantic_similarity" then (k, .num q) :: rest
    else (k, v) :: setSemSim rest q

/-- Model of `parsed['semantic_similarity'] = float(parsed['semantic_similarity'])`:
`coerce` models Python `float(...)`, with `none` for a raised
`ValueError`/`TypeError`; indexing a non-dict with a string key also
raises, hence `none` in every non-`obj` case. -/
def coerceSemSim (coerce : Json → Option ℚ) : Json → Option Json
  | .obj fields =>
    match (fields.find? fun kv => kv.1 = "semantic_similarity") with
    | some kv => (coerce kv.2).map fun q => Json.obj (setSemSim fields q)
    | none => some (.obj fields)
  | _ => none

/-- The parse-failure fallback dictionary (default similarity 0.5, raw
response text as insight when the response is truthy). -/
def fallbackAnalysis (response_text : Option String) : SemanticAnalysis where
  semantic_similarity := 1 / 2
  insights :=
    if pyTruthy response_text then response_text.getD ""
    else "Unable to generate AI analysis. Please check your API key and internet connection."
  themes_text1 := ["General content"]
  themes_text2 := ["General content"]
  key_differences := "Analysis could not be completed"
  writing_style_comparison := "Unable to compare writing styles"

/-- The `except Exception` fallback dictionary.  In Python its `insights`
field interpolates `str(e)`; the interpreter's exception text is not
modelled, only the fixed prefix. -/
def errorAnalysis : SemanticAnalysis where
  semantic_similarity := 0
  insights := "Gemini analysis unavailable"
  themes_text1 := ["Analysis unavailable"]
  themes_text2 := ["Analysis unavailable"]
  key_differences := "Gemini API error"
  writing_style_comparison := "Unable to analyze due to API error"

/-- Model of `gemini_similarity_analysis` (`Assign-03/app.py`), applied to the text
already returned by `call_gemini_api`.  A truthy response is scanned for a
brace-delimited region; `loads` failure (`json.JSONDecodeError`) is caught
by the inner `except` and falls through to the 0.5 fallback, while a
`TypeError`/`ValueError` from the membership test or the float coercion
escapes to the outer `except Exception`. -/
def gemini_similarity_analysis (loads : String → Option Json)
    (coerce : Json → Option ℚ) (response_text : Option String) : GeminiResult :=
  if pyTruthy response_text then
    let t := response_text.getD ""
    match braceSubstring t with
    | none => .fallback (fallbackAnalysis response_text)
    | some json_str =>
      match loads json_str with
      | none => .fallback (fallbackAnalysis response_text)
      | some parsed =>
        match memSemSim parsed with
        | none => .errorFallback errorAnalysis
        | some false => .parsed parsed
        | some true =>
          match coerceSemSim coerce parsed with
          | none => .errorFallback errorAnalysis
          | some j => .parsed j
  else .fallback (fallbackAnalysis response_text)

/-- Model of `gemini_improvement_suggestions` (`Assign-03/app.py`), applied to the
text already returned by `call_gemini_api` for the suggestion prompt. -/
def gemini_improvement_suggestions (response_text : Option String) : String :=
  if pyTruthy response_text then response_text.getD ""
  else "No suggestions available. Please check your API key."

/-! ### The `/compare` endpoint -/

/-- The `stats` sub-dictionary of the response. -/
structure Stats where
  text1_words : Nat
  text2_words : Nat
  text1_chars : Nat
  text2_chars : Nat
  total_unique_words : Nat
deriving DecidableEq

/-- The JSON body of a successful `/compare` response (`Assign-03`; the
`Assign-02` body is the same minus the two Gemini fields). -/
structure SimilarityReport where
  cosine_similarity : ℝ
  jaccard_index : ℚ
  word_overlap : ℚ
  character_similarity : ℚ
  edit_distance : Nat
  shared_words : List String
  unique_text1 : List String
  unique_text2 : List String
  stats : Stats
  gemini_analysis : GeminiResult
  improvement_suggestions : String

/-- A `/compare` response: either the 400 error or a 200 report. -/
inductive CompareResponse where
  | error (status : Nat) (message : String) : CompareResponse
  | ok (report : SimilarityReport) : CompareResponse

/-- The body of `compare` after input validation (`Assign-03/app.py`),
applied to the already-stripped texts.  `o1` and `o2` are the outcomes of
the two oracle round trips (analysis prompt, suggestion prompt). -/
noncomputable def buildReport (loads : String → Option Json)
    (coerce : Json → Option ℚ) (o1 o2 : OracleOutcome)
    (text1 text2 : String) : SimilarityReport :=
  let words1 := clean_text text1
  let words2 := clean_text text2
  let set1 := words1.toFinset
  let set2 := words2.toFinset
  { cosine_similarity := cosine_sim text1 text2
    jaccard_index := jaccard_sim words1 words2
    word_overlap := word_overlap words1 words2
    character_similarity := char_similarity text1 text2
    edit_distance := Int.natAbs ((text1.length : Int) - (text2.length : Int))
    shared_words := (set1 ∩ set2).sort (· ≤ ·)
    unique_text1 := (set1 \ set2).sort (· ≤ ·)
    unique_text2 := (set2 \ set1).sort (· ≤ ·)
    stats :=
      { text1_words := words1.length
        text2_words := words2.length
        text1_chars := text1.length
        text2_chars := text2.length
        total_unique_words := (set1 ∪ set2).card }
    gemini_analysis := gemini_similarity_analysis loads coerce (call_gemini_api o1)
    improvement_suggestions := gemini_improvement_suggestions (call_gemini_api o2) }

/-- The `/compare` handler `compare` (`Assign-03/app.py`): strip both texts, reject
with a 400 if either is empty, otherwise build the full report. -/
noncomputable def compareRoute (loads : String → Option Json)
    (coerce : Json → Option ℚ) (o1 o2 : OracleOutcome)
    (text1raw text2raw : String) : CompareResponse :=
  if (pyStrip text1raw).isEmpty || (pyStrip text2raw).isEmpty then
    .error 400 "Please enter both texts"
  else
    .ok (buildReport loads coerce o1 o2 (pyStrip text1raw) (pyStrip text2raw))

/-! ### Concrete stand-ins used to instantiate the theorems -/

/-- A `json.loads` stand-in that fails on every input. -/
def loadsNone : String → Option Json := fun _ => none

/-- A `float(...)` stand-in that fails on every input. -/
def coerceNone : Json → Option ℚ := fun _ => none

/-- An oracle reply whose embedded JSON object parses but carries no
`semantic_similarity` field. -/
def replyNoSemSim : String := "\x7b\"foo\": 1\x7d"

/-- A `json.loads` stand-in recording that Python decodes the brace-delimited
region of `replyNoSemSim` to the object with the single field `foo = 1`. -/
def loadsFoo : String → Option Json := fun s =>
  if s = replyNoSemSim then some (Json.obj [("foo", Json.num 1)]) else none

/-- The `edit_distance` field of a successful response (999 on an error
response, a value the field never takes in the inputs considered). -/
def editDistanceOf : CompareResponse → Nat
  | .ok r => r.edit_distance
  | .error _ _ => 999

/-- The `character_similarity` field of a successful response (999 on an
error response). -/
def charSimOf : CompareResponse → ℚ
  | .ok r => r.character_similarity
  | .error _ _ => 999

/-! ### Helper lemmas -/

theorem union_card_pos_of_not_both_empty {α : Type} [DecidableEq α]
    {s t : Finset α} (h : ¬(s = ∅ ∧ t = ∅)) : 0 < (s ∪ t).card := by
  refine Finset.card_pos.mpr (Finset.nonempty_iff_ne_empty.mpr ?_)
  intro hu
  exact h (Finset.union_eq_empty.mp hu)

/-! ### Claims -/

/-- Claim C5: for all inputs the Jaccard index equals the intersection
cardinality over the union cardinality of the two word sets, and equals
1.0 when both word sets are empty. -/
theorem claim5_jaccard_formula (w1 w2 : List String) :
    jaccard_sim w1 w2 =
      if w1.toFinset = ∅ ∧ w2.toFinset = ∅ then 1
      else ((w1.toFinset ∩ w2.toFinset).card : ℚ) /
        ((w1.toFinset ∪ w2.toFinset).card : ℚ) := by
  unfold jaccard_sim
  by_cases h : w1.toFinset = ∅ ∧ w2.toFinset = ∅
  · simp [h]
  · simp [h, union_card_pos_of_not_both_empty h]

/-- Claim C6: for all inputs the word overlap percentage equals
`2 * shared / (card1 + card2) * 100` over the two word sets, and equals
100.0 when both word sets are empty. -/
theorem claim6_word_overlap_formula (w1 w2 : List String) :
    word_overlap w1 w2 =
      if w1.toFinset = ∅ ∧ w2.toFinset = ∅ then 100
      else 2 * ((w1.toFinset ∩ w2.toFinset).card : ℚ) /
        ((w1.toFinset.card : ℚ) + (w2.toFinset.card : ℚ)) * 100 := by
  unfold word_overlap
  by_cases h : w1.toFinset = ∅ ∧ w2.toFinset = ∅
  · simp [h]
  · have hpos : 0 < w1.toFinset.card + w2.toFinset.card := by
      rcases not_and_or.mp h with h1 | h1
      · exact Nat.lt_of_lt_of_le
          (Finset.card_pos.mpr (Finset.nonempty_iff_ne_empty.mpr h1))
          (Nat.le_add_right _ _)
      · exact Nat.lt_of_lt_of_le
          (Finset.card_pos.mpr (Finset.nonempty_iff_ne_empty.mpr h1))
          (Nat.le_add_left _ _)
    simp only [h, if_false, hpos, if_true]
    push_cast
    ring

/-- Claim C7: for all inputs the character similarity equals the
intersection cardinality over the union cardinality of the two lowercase
alphabetic character sets, and equals 0.0 whenever either character set
is empty. -/
theorem claim7_char_similarity_formula (t1 t2 : String) :
    char_similarity t1 t2 =
      if (charFilter t1).toFinset = ∅ ∨ (charFilter t2).toFinset = ∅ then 0
      else (((charFilter t1).toFinset ∩ (charFilter t2).toFinset).card : ℚ) /
        (((charFilter t1).toFinset ∪ (charFilter t2).toFinset).card : ℚ) := by
  unfold char_similarity
  by_cases h1 : charFilter t1 = []
  · simp [h1]
  · by_cases h2 : charFilter t2 = []
    · simp [h2]
    · have hne : ¬((charFilter t1).toFinset = ∅ ∨ (charFilter t2).toFinset = ∅) := by
        simp [List.toFinset_eq_empty_iff, h1, h2]
      have hpos : 0 < ((charFilter t1).toFinset ∪ (charFilter t2).toFinset).card :=
        union_card_pos_of_not_both_empty (by
          intro hc
          exact hne (Or.inl hc.1))
      simp [h1, h2, hne, hpos, List.isEmpty_iff]

/-- Claim C9: a request in which either text is empty after trimming is
rejected with status 400 and the error body, and no report (hence no
metric) is produced. -/
theorem claim9_empty_input_rejected (loads : String → Option Json)
    (coerce : Json → Option ℚ) (o1 o2 : OracleOutcome)
    (t1raw t2raw : String) (h : pyStrip t1raw = "" ∨ pyStrip t2raw = "") :
    compareRoute loads coerce o1 o2 t1raw t2raw =
      .error 400 "Please enter both texts" := by
  unfold compareRoute
  rcases h with h | h <;>
    simp [h, show ("" : String).isEmpty = true from rfl]

/-- Witness for claim C9 at the concrete request `("", "x")`. -/
theorem claim9_witness :
    (pyStrip "" = "" ∨ pyStrip "x" = "") ∧
      compareRoute loadsNone coerceNone .noCredential .noCredential "" "x" =
        .error 400 "Please enter both texts" :=
  ⟨Or.inl rfl,
    claim9_empty_input_rejected loadsNone coerceNone .noCredential .noCredential
      "" "x" (Or.inl rfl)⟩

/-- Counterexample to claim C1: for the request `(" a", "b")` the report's
`edit_distance` is 0 (computed on the stripped texts `"a"` and `"b"`),
while the absolute difference of the raw untrimmed lengths is 1. -/
theorem claim1_counterexample :
    editDistanceOf
        (compareRoute loadsNone coerceNone .noCredential .noCredential " a" "b") = 0 ∧
      Int.natAbs (((" a" : String).length : Int) - (("b" : String).length : Int)) = 1 := by
  constructor
  · rfl
  · rfl

/-- Claim C1 as amended: for every request with both texts non-empty after
trimming, the `edit_distance` field equals the absolute difference of the
character counts of the two whitespace-stripped texts. -/
theorem claim1_edit_distance (loads : String → Option Json)
    (coerce : Json → Option ℚ) (o1 o2 : OracleOutcome) (t1raw t2raw : String)
    (h1 : (pyStrip t1raw).isEmpty = false) (h2 : (pyStrip t2raw).isEmpty = false) :
    compareRoute loads coerce o1 o2 t1raw t2raw =
      .ok (buildReport loads coerce o1 o2 (pyStrip t1raw) (pyStrip t2raw)) ∧
    (buildReport loads coerce o1 o2 (pyStrip t1raw) (pyStrip t2raw)).edit_distance =
      Int.natAbs (((pyStrip t1raw).length : Int) - ((pyStrip t2raw).length : Int)) := by
  constructor
  · unfold compareRoute
    simp [h1, h2]
  · rfl

/-- Witness for the amended claim C1 at the concrete request `(" ab ", "xyz")`. -/
theorem claim1_witness :
    (pyStrip " ab ").isEmpty = false ∧ (pyStrip "xyz").isEmpty = false ∧
    (compareRoute loadsNone coerceNone .noCredential .noCredential " ab " "xyz" =
      .ok (buildReport loadsNone coerceNone .noCredential .noCredential
        (pyStrip " ab ") (pyStrip "xyz")) ∧
    (buildReport loadsNone coerceNone .noCredential .noCredential
        (pyStrip " ab ") (pyStrip "xyz")).edit_distance =
      Int.natAbs (((pyStrip " ab ").length : Int) - ((pyStrip "xyz").length : Int))) :=
  ⟨rfl, rfl,
    claim1_edit_distance loadsNone coerceNone .noCredential .noCredential
      " ab " "xyz" rfl rfl⟩

theorem jaccard_sim_self (w : List String) : jaccard_sim w w = 1 := by
  unfold jaccard_sim
  by_cases h : w.toFinset = ∅
  · simp [h]
  · have hpos : 0 < w.toFinset.card :=
      Finset.card_pos.mpr (Finset.nonempty_iff_ne_empty.mpr h)
    have hne : (w.toFinset.card : ℚ) ≠ 0 := Nat.cast_ne_zero.mpr hpos.ne'
    simp [h, hpos, div_self hne]

theorem word_overlap_self (w : List String) : word_overlap w w = 100 := by
  unfold word_overlap
  by_cases h : w.toFinset = ∅
  · simp [h]
  · have hpos : 0 < w.toFinset.card :=
      Finset.card_pos.mpr (Finset.nonempty_iff_ne_empty.mpr h)
    have hne : (w.toFinset.card : ℚ) ≠ 0 := Nat.cast_ne_zero.mpr hpos.ne'
    have hpos2 : 0 < w.toFinset.card + w.toFinset.card := by omega
    simp only [h, and_self, if_false, Finset.inter_self, hpos2, if_true]
    push_cast
    field_simp
    ring

theorem char_similarity_self (t : String) :
    char_similarity t t = if (charFilter t).isEmpty then 0 else 1 := by
  unfold char_similarity
  by_cases h : charFilter t = []
  · simp [h]
  · have hlist : (charFilter t).isEmpty = false := by
      simp [List.isEmpty_iff, h]
    have hfin : (charFilter t).toFinset ≠ ∅ := by
      simp [List.toFinset_eq_empty_iff, h]
    have hpos : 0 < (charFilter t).toFinset.card :=
      Finset.card_pos.mpr (Finset.nonempty_iff_ne_empty.mpr hfin)
    have hne : ((charFilter t).toFinset.card : ℚ) ≠ 0 := Nat.cast_ne_zero.mpr hpos.ne'
    simp [hlist, hpos, div_self hne]

/-- Counterexample to claim C4: the identical non-empty inputs `"1"` and
`"1"` yield a report whose `character_similarity` is 0, not 1 (the texts
contain no alphabetic character, so the code's empty-set branch fires). -/
theorem claim4_counterexample :
    charSimOf (compareRoute loadsNone coerceNone .noCredential .noCredential "1" "1") = 0 ∧
    charSimOf (compareRoute loadsNone coerceNone .noCredential .noCredential "1" "1") ≠ 1 := by
  constructor
  · rfl
  · intro hcontra
    rw [show charSimOf (compareRoute loadsNone coerceNone .noCredential .noCredential "1" "1")
        = 0 from rfl] at hcontra
    exact zero_ne_one hcontra

/-- Claim C4 as amended: for every pair of identical inputs that are
non-empty after trimming, the report has `jaccard_index` = 1.0 and
`word_overlap` = 100.0; its `character_similarity` is 1.0 when the text
contains at least one alphabetic character and 0.0 otherwise. -/
theorem claim4_identical_inputs (loads : String → Option Json)
    (coerce : Json → Option ℚ) (o1 o2 : OracleOutcome) (t : String)
    (h : (pyStrip t).isEmpty = false) :
    compareRoute loads coerce o1 o2 t t =
      .ok (buildReport loads coerce o1 o2 (pyStrip t) (pyStrip t)) ∧
    (buildReport loads coerce o1 o2 (pyStrip t) (pyStrip t)).jaccard_index = 1 ∧
    (buildReport loads coerce o1 o2 (pyStrip t) (pyStrip t)).word_overlap = 100 ∧
    ((charFilter (pyStrip t)).isEmpty = false →
      (buildReport loads coerce o1 o2 (pyStrip t) (pyStrip t)).character_similarity = 1) ∧
    ((charFilter (pyStrip t)).isEmpty = true →
      (buildReport loads coerce o1 o2 (pyStrip t) (pyStrip t)).character_similarity = 0) := by
  refine ⟨?_, ?_, ?_, ?_, ?_⟩
  · unfold compareRoute
    simp [h]
  · exact jaccard_sim_self (clean_text (pyStrip t))
  · exact word_overlap_self (clean_text (pyStrip t))
  · intro hc
    have := char_similarity_self (pyStrip t)
    rw [hc] at this
    simpa using this
  · intro hc
    have := char_similarity_self (pyStrip t)
    rw [hc] at this
    simpa using this

/-- Witness for the amended claim C4 at the concrete identical inputs
`"ab"` and `"ab"`. -/
theorem claim4_witness :
    (pyStrip "ab").isEmpty = false ∧
    (compareRoute loadsNone coerceNone .noCredential .noCredential "ab" "ab" =
      .ok (buildReport loadsNone coerceNone .noCredential .noCredential
        (pyStrip "ab") (pyStrip "ab")) ∧
    (buildReport loadsNone coerceNone .noCredential .noCredential
        (pyStrip "ab") (pyStrip "ab")).jaccard_index = 1 ∧
    (buildReport loadsNone coerceNone .noCredential .noCredential
        (pyStrip "ab") (pyStrip "ab")).word_overlap = 100 ∧
    ((charFilter (pyStrip "ab")).isEmpty = false →
      (buildReport loadsNone coerceNone .noCredential .noCredential
        (pyStrip "ab") (pyStrip "ab")).character_similarity = 1) ∧
    ((charFilter (pyStrip "ab")).isEmpty = true →
      (buildReport loadsNone coerceNone .noCredential .noCredential
        (pyStrip "ab") (pyStrip "ab")).character_similarity = 0)) :=
  ⟨rfl,
    claim4_identical_inputs loadsNone coerceNone .noCredential .noCredential "ab" rfl⟩

/-- Claim C2: for every request with both texts non-empty after trimming and
every outcome of the two oracle round trips, the endpoint answers with a
complete 200 report, never an error response; when the analysis round trip
fails (`call_gemini_api` returns `None`: missing credential, transport
error, non-success status, timeout, or malformed envelope) the report's
`gemini_analysis` is the well-formed fallback dictionary, and when the
suggestion round trip fails `improvement_suggestions` is the fallback
message. -/
theorem claim2_oracle_failure_contained (loads : String → Option Json)
    (coerce : Json → Option ℚ) (o1 o2 : OracleOutcome) (t1raw t2raw : String)
    (h1 : (pyStrip t1raw).isEmpty = false) (h2 : (pyStrip t2raw).isEmpty = false) :
    compareRoute loads coerce o1 o2 t1raw t2raw =
      .ok (buildReport loads coerce o1 o2 (pyStrip t1raw) (pyStrip t2raw)) ∧
    (call_gemini_api o1 = none →
      (buildReport loads coerce o1 o2 (pyStrip t1raw) (pyStrip t2raw)).gemini_analysis =
        .fallback (fallbackAnalysis none)) ∧
    (call_gemini_api o2 = none →
      (buildReport loads coerce o1 o2 (pyStrip t1raw) (pyStrip t2raw)).improvement_suggestions =
        "No suggestions available. Please check your API key.") := by
  refine ⟨?_, ?_, ?_⟩
  · unfold compareRoute
    simp [h1, h2]
  · intro ho
    show gemini_similarity_analysis loads coerce (call_gemini_api o1) =
      .fallback (fallbackAnalysis none)
    rw [ho]
    rfl
  · intro ho
    show gemini_improvement_suggestions (call_gemini_api o2) =
      "No suggestions available. Please check your API key."
    rw [ho]
    rfl

/-- Witness for claim C2 at the concrete request `("a", "b")` with no
credential configured for either round trip. -/
theorem claim2_witness :
    (pyStrip "a").isEmpty = false ∧ (pyStrip "b").isEmpty = false ∧
    (compareRoute loadsNone coerceNone .noCredential .noCredential "a" "b" =
      .ok (buildReport loadsNone coerceNone .noCredential .noCredential
        (pyStrip "a") (pyStrip "b")) ∧
    (call_gemini_api .noCredential = none →
      (buildReport loadsNone coerceNone .noCredential .noCredential
        (pyStrip "a") (pyStrip "b")).gemini_analysis =
        .fallback (fallbackAnalysis none)) ∧
    (call_gemini_api .noCredential = none →
      (buildReport loadsNone coerceNone .noCredential .noCredential
        (pyStrip "a") (pyStrip "b")).improvement_suggestions =
        "No suggestions available. Please check your API key.")) :=
  ⟨rfl, rfl,
    claim2_oracle_failure_contained loadsNone coerceNone .noCredential .noCredential
      "a" "b" rfl rfl⟩

/-- Counterexample to claim C3: the oracle reply `replyNoSemSim` decodes to
a JSON object with no usable `semantic_similarity` value, yet the code
returns it as a parsed result, not the 0.5 fallback the claim requires. -/
theorem claim3_counterexample :
    gemini_similarity_analysis loadsFoo coerceNone (some replyNoSemSim) =
      .parsed (Json.obj [("foo", Json.num 1)]) ∧
    gemini_similarity_analysis loadsFoo coerceNone (some replyNoSemSim) ≠
      .fallback (fallbackAnalysis (some replyNoSemSim)) := by
  constructor
  · rfl
  · intro hcontra
    rw [show gemini_similarity_analysis loadsFoo coerceNone (some replyNoSemSim) =
        .parsed (Json.obj [("foo", Json.num 1)]) from rfl] at hcontra
    exact GeminiResult.noConfusion hcontra

/-- Claim C3 as amended: whenever the oracle's non-empty reply text contains
no brace-delimited region, or that region fails JSON decoding, the result
is the fallback carrying `semantic_similarity` = 0.5 and the raw response
text as `insights`. -/
theorem claim3_unparseable_fallback (loads : String → Option Json)
    (coerce : Json → Option ℚ) (t : String) (ht : t.isEmpty = false)
    (h : braceSubstring t = none ∨
      ∃ s, braceSubstring t = some s ∧ loads s = none) :
    gemini_similarity_analysis loads coerce (some t) =
      .fallback (fallbackAnalysis (some t)) ∧
    (fallbackAnalysis (some t)).semantic_similarity = 1 / 2 ∧
    (fallbackAnalysis (some t)).insights = t := by
  have htruthy : pyTruthy (some t) = true := by
    simp [pyTruthy, ht]
  refine ⟨?_, rfl, ?_⟩
  · unfold gemini_similarity_analysis
    rw [htruthy]
    simp only [if_true, Option.getD_some]
    rcases h with h | ⟨s, hs, hl⟩
    · rw [h]
    · simp only [hs, hl]
  · unfold fallbackAnalysis
    rw [htruthy]
    rfl

/-- Witness for the amended claim C3 at the concrete brace-free reply
`"plain prose"`. -/
theorem claim3_witness :
    ("plain prose" : String).isEmpty = false ∧
    (braceSubstring "plain prose" = none ∨
      ∃ s, braceSubstring "plain prose" = some s ∧ loadsNone s = none) ∧
    (gemini_similarity_analysis loadsNone coerceNone (some "plain prose") =
      .fallback (fallbackAnalysis (some "plain prose")) ∧
    (fallbackAnalysis (some "plain prose")).semantic_similarity = 1 / 2 ∧
    (fallbackAnalysis (some "plain prose")).insights = "plain prose") :=
  ⟨rfl, Or.inl rfl,
    claim3_unparseable_fallback loadsNone coerceNone "plain prose" rfl (Or.inl rfl)⟩

theorem df_symm (t1 t2 : String) (f : List Char) : df t1 t2 f = df t2 t1 f := by
  unfold df
  exact Nat.add_comm _ _

theorem idf_symm (t1 t2 : String) : idf t1 t2 = idf t2 t1 := by
  funext f
  unfold idf
  rw [df_symm]

theorem tfidfVec_symm (t1 t2 : String) : tfidfVec t1 t2 = tfidfVec t2 t1 := by
  funext d f
  unfold tfidfVec
  rw [idf_symm]

theorem dotProd_comm (vocab : Finset (List Char)) (u v : List Char → ℝ) :
    dotProd vocab u v = dotProd vocab v u := by
  unfold dotProd
  exact Finset.sum_congr rfl fun f _ => mul_comm _ _

theorem cosine_sim_symm (t1 t2 : String) : cosine_sim t1 t2 = cosine_sim t2 t1 := by
  unfold cosine_sim
  rw [tfidfVec_symm t1 t2, Finset.union_comm (featureSet t1) (featureSet t2)]
  rw [dotProd_comm (featureSet t2 ∪ featureSet t1) (tfidfVec t2 t1 t1) (tfidfVec t2 t1 t2)]
  rw [mul_comm
    (Real.sqrt (dotProd (featureSet t2 ∪ featureSet t1) (tfidfVec t2 t1 t1) (tfidfVec t2 t1 t1)))
    (Real.sqrt (dotProd (featureSet t2 ∪ featureSet t1) (tfidfVec t2 t1 t2) (tfidfVec t2 t1 t2)))]

theorem char_similarity_comm (t1 t2 : String) :
    char_similarity t1 t2 = char_similarity t2 t1 := by
  unfold char_similarity
  by_cases h1 : (charFilter t1).isEmpty = true <;>
    by_cases h2 : (charFilter t2).isEmpty = true <;>
      simp [h1, h2, Finset.inter_comm, Finset.union_comm]

theorem jaccard_sim_comm (w1 w2 : List String) :
    jaccard_sim w1 w2 = jaccard_sim w2 w1 := by
  unfold jaccard_sim
  by_cases h1 : w1.toFinset = ∅ <;> by_cases h2 : w2.toFinset = ∅ <;>
    simp [h1, h2, Finset.inter_comm, Finset.union_comm]

theorem word_overlap_comm (w1 w2 : List String) :
    word_overlap w1 w2 = word_overlap w2 w1 := by
  unfold word_overlap
  by_cases h1 : w1.toFinset = ∅ <;> by_cases h2 : w2.toFinset = ∅ <;>
    simp [h1, h2, Finset.inter_comm, Nat.add_comm]

/-- Claim C8: each of the four similarity metrics, as computed by the
endpoint on a pair of texts, is unchanged when the two texts are swapped
(`jaccard_sim` and `word_overlap` are applied to the cleaned word lists,
the other two to the texts themselves). -/
theorem claim8_metric_symmetry (t1 t2 : String) :
    char_similarity t1 t2 = char_similarity t2 t1 ∧
    cosine_sim t1 t2 = cosine_sim t2 t1 ∧
    jaccard_sim (clean_text t1) (clean_text t2) =
      jaccard_sim (clean_text t2) (clean_text t1) ∧
    word_overlap (clean_text t1) (clean_text t2) =
      word_overlap (clean_text t2) (clean_text t1) :=
  ⟨char_similarity_comm t1 t2, cosine_sim_symm t1 t2,
    jaccard_sim_comm (clean_text t1) (clean_text t2),
    word_overlap_comm (clean_text t1) (clean_text t2)⟩

theorem card_inter_sdiff_partition (S1 S2 : Finset String) :
    (S1 ∪ S2).card = (S1 ∩ S2).card + (S1 \ S2).card + (S2 \ S1).card := by
  have h1 := Finset.card_sdiff_add_card_inter S1 S2
  have h2 := Finset.card_sdiff_add_card_inter S2 S1
  have h3 := Finset.card_union_add_card_inter S1 S2
  rw [Finset.inter_comm] at h2
  omega

theorem inter_sdiff_cover (S1 S2 : Finset String) :
    (S1 ∩ S2) ∪ (S1 \ S2) ∪ (S2 \ S1) = S1 ∪ S2 := by
  ext a
  simp only [Finset.mem_union, Finset.mem_inter, Finset.mem_sdiff]
  tauto

theorem sort_toFinset (s : Finset String) :
    (s.sort (· ≤ ·)).toFinset = s := by
  ext a
  simp [Finset.mem_sort]

/-- Claim C10: for every request with both texts non-empty after trimming,
the three word lists of the report are sorted, pairwise disjoint, and
together cover exactly the union of the two word sets, so the
`total_unique_words` statistic equals the sum of their lengths. -/
theorem claim10_word_lists (loads : String → Option Json)
    (coerce : Json → Option ℚ) (o1 o2 : OracleOutcome) (t1raw t2raw : String)
    (h1 : (pyStrip t1raw).isEmpty = false) (h2 : (pyStrip t2raw).isEmpty = false) :
    compareRoute loads coerce o1 o2 t1raw t2raw =
      .ok (buildReport loads coerce o1 o2 (pyStrip t1raw) (pyStrip t2raw)) ∧
    List.Sorted (· ≤ ·)
      (buildReport loads coerce o1 o2 (pyStrip t1raw) (pyStrip t2raw)).shared_words ∧
    List.Sorted (· ≤ ·)
      (buildReport loads coerce o1 o2 (pyStrip t1raw) (pyStrip t2raw)).unique_text1 ∧
    List.Sorted (· ≤ ·)
      (buildReport loads coerce o1 o2 (pyStrip t1raw) (pyStrip t2raw)).unique_text2 ∧
    (buildReport loads coerce o1 o2 (pyStrip t1raw) (pyStrip t2raw)).shared_words.Disjoint
      (buildReport loads coerce o1 o2 (pyStrip t1raw) (pyStrip t2raw)).unique_text1 ∧
    (buildReport loads coerce o1 o2 (pyStrip t1raw) (pyStrip t2raw)).shared_words.Disjoint
      (buildReport loads coerce o1 o2 (pyStrip t1raw) (pyStrip t2raw)).unique_text2 ∧
    (buildReport loads coerce o1 o2 (pyStrip t1raw) (pyStrip t2raw)).unique_text1.Disjoint
      (buildReport loads coerce o1 o2 (pyStrip t1raw) (pyStrip t2raw)).unique_text2 ∧
    (buildReport loads coerce o1 o2 (pyStrip t1raw) (pyStrip t2raw)).shared_words.toFinset ∪
      (buildReport loads coerce o1 o2 (pyStrip t1raw) (pyStrip t2raw)).unique_text1.toFinset ∪
      (buildReport loads coerce o1 o2 (pyStrip t1raw) (pyStrip t2raw)).unique_text2.toFinset =
      (clean_text (pyStrip t1raw)).toFinset ∪ (clean_text (pyStrip t2raw)).toFinset ∧
    (buildReport loads coerce o1 o2 (pyStrip t1raw) (pyStrip t2raw)).stats.total_unique_words =
      (buildReport loads coerce o1 o2 (pyStrip t1raw) (pyStrip t2raw)).shared_words.length +
      (buildReport loads coerce o1 o2 (pyStrip t1raw) (pyStrip t2raw)).unique_text1.length +
      (buildReport loads coerce o1 o2 (pyStrip t1raw) (pyStrip t2raw)).unique_text2.length := by
  refine ⟨?_, ?_, ?_, ?_, ?_, ?_, ?_, ?_, ?_⟩
  · unfold compareRoute
    simp [h1, h2]
  · show List.Sorted (· ≤ ·)
      (((clean_text (pyStrip t1raw)).toFinset ∩ (clean_text (pyStrip t2raw)).toFinset).sort
        (· ≤ ·))
    exact Finset.sort_sorted _ _
  · show List.Sorted (· ≤ ·)
      (((clean_text (pyStrip t1raw)).toFinset \ (clean_text (pyStrip t2raw)).toFinset).sort
        (· ≤ ·))
    exact Finset.sort_sorted _ _
  · show List.Sorted (· ≤ ·)
      (((clean_text (pyStrip t2raw)).toFinset \ (clean_text (pyStrip t1raw)).toFinset).sort
        (· ≤ ·))
    exact Finset.sort_sorted _ _
  · intro a ha hb
    rw [show (buildReport loads coerce o1 o2 (pyStrip t1raw) (pyStrip t2raw)).shared_words =
      ((clean_text (pyStrip t1raw)).toFinset ∩ (clean_text (pyStrip t2raw)).toFinset).sort
        (· ≤ ·) from rfl, Finset.mem_sort, Finset.mem_inter] at ha
    rw [show (buildReport loads coerce o1 o2 (pyStrip t1raw) (pyStrip t2raw)).unique_text1 =
      ((clean_text (pyStrip t1raw)).toFinset \ (clean_text (pyStrip t2raw)).toFinset).sort
        (· ≤ ·) from rfl, Finset.mem_sort, Finset.mem_sdiff] at hb
    exact hb.2 ha.2
  · intro a ha hb
    rw [show (buildReport loads coerce o1 o2 (pyStrip t1raw) (pyStrip t2raw)).shared_words =
      ((clean_text (pyStrip t1raw)).toFinset ∩ (clean_text (pyStrip t2raw)).toFinset).sort
        (· ≤ ·) from rfl, Finset.mem_sort, Finset.mem_inter] at ha
    rw [show (buildReport loads coerce o1 o2 (pyStrip t1raw) (pyStrip t2raw)).unique_text2 =
      ((clean_text (pyStrip t2raw)).toFinset \ (clean_text (pyStrip t1raw)).toFinset).sort
        (· ≤ ·) from rfl, Finset.mem_sort, Finset.mem_sdiff] at hb
    exact hb.2 ha.1
  · intro a ha hb
    rw [show (buildReport loads coerce o1 o2 (pyStrip t1raw) (pyStrip t2raw)).unique_text1 =
      ((clean_text (pyStrip t1raw)).toFinset \ (clean_text (pyStrip t2raw)).toFinset).sort
        (· ≤ ·) from rfl, Finset.mem_sort, Finset.mem_sdiff] at ha
    rw [show (buildReport loads coerce o1 o2 (pyStrip t1raw) (pyStrip t2raw)).unique_text2 =
      ((clean_text (pyStrip t2raw)).toFinset \ (clean_text (pyStrip t1raw)).toFinset).sort
        (· ≤ ·) from rfl, Finset.mem_sort, Finset.mem_sdiff] at hb
    exact ha.2 hb.1
  · show (((clean_text (pyStrip t1raw)).toFinset ∩ (clean_text (pyStrip t2raw)).toFinset).sort
        (· ≤ ·)).toFinset ∪
      (((clean_text (pyStrip t1raw)).toFinset \ (clean_text (pyStrip t2raw)).toFinset).sort
        (· ≤ ·)).toFinset ∪
      (((clean_text (pyStrip t2raw)).toFinset \ (clean_text (pyStrip t1raw)).toFinset).sort
        (· ≤ ·)).toFinset =
      (clean_text (pyStrip t1raw)).toFinset ∪ (clean_text (pyStrip t2raw)).toFinset
    rw [sort_toFinset, sort_toFinset, sort_toFinset]
    exact inter_sdiff_cover _ _
  · show ((clean_text (pyStrip t1raw)).toFinset ∪ (clean_text (pyStrip t2raw)).toFinset).card =
      (((clean_text (pyStrip t1raw)).toFinset ∩ (clean_text (pyStrip t2raw)).toFinset).sort
        (· ≤ ·)).length +
      (((clean_text (pyStrip t1raw)).toFinset \ (clean_text (pyStrip t2raw)).toFinset).sort
        (· ≤ ·)).length +
      (((clean_text (pyStrip t2raw)).toFinset \ (clean_text (pyStrip t1raw)).toFinset).sort
        (· ≤ ·)).length
    rw [Finset.length_sort, Finset.length_sort, Finset.length_sort]
    exact card_inter_sdiff_partition _ _

/-- Witness for claim C10 at the concrete request `("b a", "b c")`. -/
theorem claim10_witness :
    (pyStrip "b a").isEmpty = false ∧ (pyStrip "b c").isEmpty = false ∧
    (compareRoute loadsNone coerceNone .noCredential .noCredential "b a" "b c" =
      .ok (buildReport loadsNone coerceNone .noCredential .noCredential
        (pyStrip "b a") (pyStrip "b c")) ∧
    List.Sorted (· ≤ ·)
      (buildReport loadsNone coerceNone .noCredential .noCredential
        (pyStrip "b a") (pyStrip "b c")).shared_words ∧
    List.Sorted (· ≤ ·)
      (buildReport loadsNone coerceNone .noCredential .noCredential
        (pyStrip "b a") (pyStrip "b c")).unique_text1 ∧
    List.Sorted (· ≤ ·)
      (buildReport loadsNone coerceNone .noCredential .noCredential
        (pyStrip "b a") (pyStrip "b c")).unique_text2 ∧
    (buildReport loadsNone coerceNone .noCredential .noCredential
        (pyStrip "b a") (pyStrip "b c")).shared_words.Disjoint
      (buildReport loadsNone coerceNone .noCredential .noCredential
        (pyStrip "b a") (pyStrip "b c")).unique_text1 ∧
    (buildReport loadsNone coerceNone .noCredential .noCredential
        (pyStrip "b a") (pyStrip "b c")).shared_words.Disjoint
      (buildReport loadsNone coerceNone .noCredential .noCredential
        (pyStrip "b a") (pyStrip "b c")).unique_text2 ∧
    (buildReport loadsNone coerceNone .noCredential .noCredential
        (pyStrip "b a") (pyStrip "b c")).unique_text1.Disjoint
      (buildReport loadsNone coerceNone .noCredential .noCredential
        (pyStrip "b a") (pyStrip "b c")).unique_text2 ∧
    (buildReport loadsNone coerceNone .noCredential .noCredential
        (pyStrip "b a") (pyStrip "b c")).shared_words.toFinset ∪
      (buildReport loadsNone coerceNone .noCredential .noCredential
        (pyStrip "b a") (pyStrip "b c")).unique_text1.toFinset ∪
      (buildReport loadsNone coerceNone .noCredential .noCredential
        (pyStrip "b a") (pyStrip "b c")).unique_text2.toFinset =
      (clean_text (pyStrip "b a")).toFinset ∪ (clean_text (pyStrip "b c")).toFinset ∧
    (buildReport loadsNone coerceNone .noCredential .noCredential
        (pyStrip "b a") (pyStrip "b c")).stats.total_unique_words =
      (buildReport loadsNone coerceNone .noCredential .noCredential
        (pyStrip "b a") (pyStrip "b c")).shared_words.length +
      (buildReport loadsNone coerceNone .noCredential .noCredential
        (pyStrip "b a") (pyStrip "b c")).unique_text1.length +
      (buildReport loadsNone coerceNone .noCredential .noCredential
        (pyStrip "b a") (pyStrip "b c")).unique_text2.length) :=
  ⟨rfl, rfl,
    claim10_word_lists loadsNone coerceNone .noCredential .noCredential
      "b a" "b c" rfl rfl⟩
